import Mathlib

/-!
Verification of the LLM document-extraction orchestrator of the
gcr-resilience-map repository (src/scripts/paper_processor.py).

The Python source is shallowly embedded: document text is modelled as its
token sequence (the tokenizer encode/decode pair is the identity on token
lists and token counting is list length), the md5 content digest is modelled
by the digested content itself (text ++ query), timestamps are integer
seconds, and the Claude client is an oracle returning either a response
text, an error that the source classifies as a token-limit overflow, or any
other error.
-/

set_option maxRecDepth 100000

namespace GcrPaperProc

/-- Token sequences stand for text fed to the model: `count_tokens` is
`length`, `encode` and `decode` are the identity, a slice `tokens[:n]` is
`take n`. -/
abbrev Text := List Nat

/-- The extraction query, also counted in tokens. -/
abbrev Query := List Nat

/-! ## Response parser (`PaperProcessor._parse_response`, lines 301-349)

The parser works on character lists so that every step is kernel-computable;
a Lean `String` is exactly its character list. -/

/-- Whitespace stripped by `str.strip()`. -/
def isSpaceChar (c : Char) : Bool :=
  c = ' ' || c = '\t' || c = '\n' || c = '\r'

/-- `response.strip()` (line 305). -/
def trimChars (cs : List Char) : List Char :=
  ((cs.dropWhile isSpaceChar).reverse.dropWhile isSpaceChar).reverse

/-- `clean_text.split('\n')` (line 309): Python `str.split` with an explicit
separator, so an empty string yields one empty piece and a trailing
separator yields a trailing empty piece. -/
def splitLines : List Char → List (List Char)
  | [] => [[]]
  | c :: cs =>
    if c = '\n' then [] :: splitLines cs
    else
      match splitLines cs with
      | [] => [[c]]
      | l :: ls => (c :: l) :: ls

/-- `needle in hay` on character lists. -/
def containsSub (needle hay : List Char) : Bool :=
  (List.range (hay.length + 1)).any (fun i => needle.isPrefixOf (hay.drop i))

/-- Line 313: `"research question" in line.lower() or "csv format" in
line.lower()` — the discarded prompt-echo lines. -/
def isPromptTextLine (line : List Char) : Bool :=
  let lower := line.map Char.toLower
  containsSub "research question".toList lower || containsSub "csv format".toList lower

/-- Lines 310-318: skip prompt-echo lines, pick the first remaining line
with at least 10 commas (`line.count(',') >= 10`). -/
def selectCsvLine : List (List Char) → Option (List Char)
  | [] => none
  | l :: ls =>
    if isPromptTextLine l then selectCsvLine ls
    else if 10 ≤ l.count ',' then some l
    else selectCsvLine ls

/-- Parser states of the `csv.reader` field automaton (default dialect,
non-strict): outside a field, inside an unquoted field, inside a quoted
field, and just after a quote character inside a quoted field. -/
inductive CsvMode where
  | fieldStart
  | plainField
  | quotedField
  | quoteInQuoted

/-- One-line `csv.reader` scan (line 324-325): quote-aware splitting into
fields, with `""` inside a quoted field standing for one literal quote and
stray characters after a closing quote appended to the field. -/
def csvScan : CsvMode → List Char → List Char → List String
  | _, field, [] => [⟨field⟩]
  | .fieldStart, field, c :: rest =>
    if c = '"' then csvScan .quotedField field rest
    else if c = ',' then ⟨field⟩ :: csvScan .fieldStart [] rest
    else csvScan .plainField (field ++ [c]) rest
  | .plainField, field, c :: rest =>
    if c = ',' then ⟨field⟩ :: csvScan .fieldStart [] rest
    else csvScan .plainField (field ++ [c]) rest
  | .quotedField, field, c :: rest =>
    if c = '"' then csvScan .quoteInQuoted field rest
    else csvScan .quotedField (field ++ [c]) rest
  | .quoteInQuoted, field, c :: rest =>
    if c = '"' then csvScan .quotedField (field ++ ['"']) rest
    else if c = ',' then ⟨field⟩ :: csvScan .fieldStart [] rest
    else csvScan .plainField (field ++ [c]) rest

/-- `next(csv.reader(StringIO(csv_line)))`: the parsed row. An empty line
would yield no row at all; the caller only ever passes a line with at least
ten commas, which is nonempty. -/
def csvFields (cs : List Char) : List String :=
  match cs with
  | [] => []
  | _ => csvScan .fieldStart [] cs

/-- The dataclass `PaperMetadata` (lines 35-60): `filename`, fifteen
optional extraction fields, and an optional `error`. The helper field
`current_query`, excluded from `to_dict` and irrelevant to every claim, is
omitted. -/
structure PaperMetadata where
  filename : String
  paper_citation : Option String := none
  publication_type : Option String := none
  gcr_types : Option String := none
  geographic_focus : Option String := none
  geographic_factors : Option String := none
  institutional_factors : Option String := none
  infrastructural_factors : Option String := none
  other_resilience_factors : Option String := none
  study_approach : Option String := none
  resilience_phase : Option String := none
  main_resilience_factors : Option String := none
  resilience_tradeoffs : Option String := none
  vulnerable_resilient_regions : Option String := none
  overall_relevance : Option String := none
  evidence_gaps : Option String := none
  error : Option String := none
deriving DecidableEq

instance : Inhabited PaperMetadata := ⟨{ filename := "" }⟩

/-- Lines 328-346: map the parsed row positionally onto the field list,
`row[i] if len(row) > i else None`. -/
def recordOfRow (filename : String) (row : List String) : PaperMetadata :=
  { filename := filename
    paper_citation := row.get? 0
    publication_type := row.get? 1
    gcr_types := row.get? 2
    geographic_focus := row.get? 3
    geographic_factors := row.get? 4
    institutional_factors := row.get? 5
    infrastructural_factors := row.get? 6
    other_resilience_factors := row.get? 7
    study_approach := row.get? 8
    resilience_phase := row.get? 9
    main_resilience_factors := row.get? 10
    resilience_tradeoffs := row.get? 11
    vulnerable_resilient_regions := row.get? 12
    overall_relevance := row.get? 13
    evidence_gaps := row.get? 14
    error := none }

/-- `PaperProcessor._parse_response` (lines 301-349): strip, split into
lines, select the data row, parse it; when no qualifying line exists the
raised `ValueError` is caught and an error-tagged record is returned. -/
def parseResponse (response filename : String) : PaperMetadata :=
  let cleanText := trimChars response.toList
  let lines := splitLines cleanText
  match selectCsvLine lines with
  | none => { filename := filename, error := some "No valid CSV line found in response" }
  | some csvLine => recordOfRow filename (csvFields csvLine)

/-- The fifteen extraction fields of a record, in order. -/
def fieldsOf (r : PaperMetadata) : List (Option String) :=
  [r.paper_citation, r.publication_type, r.gcr_types, r.geographic_focus,
   r.geographic_factors, r.institutional_factors, r.infrastructural_factors,
   r.other_resilience_factors, r.study_approach, r.resilience_phase,
   r.main_resilience_factors, r.resilience_tradeoffs,
   r.vulnerable_resilient_regions, r.overall_relevance, r.evidence_gaps]

/-! ## Response cache (`FileCache`, lines 108-133)

The md5 digest of `text + query` is modelled by the digested content
itself; the JSON dictionary is an association list. -/

/-- The cache: content key to raw response text. -/
abbrev Cache := List (List Nat × String)

/-- `cache.get(key)` (lines 126-128). -/
def cacheGet (key : List Nat) (c : Cache) : Option String :=
  (c.find? (fun p => p.1 == key)).map (fun p => p.2)

/-- `cache[key] = value` followed by the synchronous save (lines 130-133):
dictionary assignment, overwriting an existing binding. -/
def cacheSet (key : List Nat) (v : String) : Cache → Cache
  | [] => [(key, v)]
  | (k, w) :: rest => if k == key then (k, v) :: rest else (k, w) :: cacheSet key v rest

/-! ## Rate limiter (lines 222-254)

`token_usage` is the list of `(timestamp, token_count)` samples; timestamps
are integer seconds and sleeping advances the clock by the slept amount. -/

/-- `_cleanup_old_usage` (lines 222-226): keep samples strictly newer than
`now - 60`. -/
def cleanupOldUsage (now : Int) (usage : List (Int × Nat)) : List (Int × Nat) :=
  usage.filter (fun s => now - 60 < s.1)

/-- Total token count of a usage window (line 231). -/
def sumUsage (usage : List (Int × Nat)) : Nat :=
  (usage.map Prod.snd).sum

/-- `_wait_for_rate_limit` (lines 233-250) as a fuel-indexed loop returning
the clock, the usage window (mutated by the pruning inside
`_get_current_token_usage`) and the total seconds slept; `none` means the
fuel ran out before admission.  The source sleeps the constant
`wait_time = 60` (line 246) and then prunes again before re-entering the
loop. -/
def waitForRateLimit (budget required : Nat) : Nat → Int → List (Int × Nat) → Option (Int × List (Int × Nat) × Nat)
  | 0, _, _ => none
  | fuel + 1, now, usage =>
    let pruned := cleanupOldUsage now usage
    if sumUsage pruned + required ≤ budget then some (now, pruned, 0)
    else if pruned.isEmpty then some (now, pruned, 0)
    else
      match waitForRateLimit budget required fuel (now + 60) (cleanupOldUsage (now + 60) pruned) with
      | none => none
      | some (n, u, s) => some (n, u, 60 + s)

/-- The duration of the first suspension `_wait_for_rate_limit` performs,
`none` when the very first check admits the caller without sleeping
(lines 235-247). -/
def firstSleepDuration (budget required : Nat) (now : Int) (usage : List (Int × Nat)) : Option Nat :=
  let pruned := cleanupOldUsage now usage
  if sumUsage pruned + required ≤ budget then none
  else if pruned.isEmpty then none
  else some 60

/-! ## Extraction orchestrator (`PaperProcessor.process_paper`, lines 256-299) -/

/-- The outcome of one Claude call as the source classifies it (lines
285-299): a response text, an exception whose message matches the
token-limit sniff (`"too long" in s or ("token" in s and "limit" in s)`),
or any other exception, which is re-raised. -/
inductive LLMResult where
  | ok (response : String)
  | overflow (msg : String)
  | fatal (msg : String)

/-- The external Claude client as a deterministic oracle over the text
actually sent and the query. -/
abbrev Oracle := Text → Query → LLMResult

/-- Lines 289-297: `target_tokens = max(1000, int(current_tokens * 0.8))`
(the shrink factor 0.8 set in `__init__`; `int(n * 0.8)` is `⌊4n/5⌋` for
the token counts in play) followed by re-encoding and slicing
`tokens[:target]`. -/
def shrinkTarget (currentTokens : Nat) : Nat :=
  max 1000 (currentTokens * 4 / 5)

/-- The whole truncation step applied to the current text on an overflow
failure. -/
def overflowShrink (t : Text) : Text :=
  t.take (shrinkTarget t.length)

/-- Everything `process_paper` leaves behind when it returns or raises:
the produced record (`Except.error` is a re-raised exception message), the
cache, the usage window, the clock, and how many Claude calls were made. -/
structure RunOutcome where
  result : Except String PaperMetadata
  cache : Cache
  usage : List (Int × Nat)
  now : Int
  calls : Nat

instance : Inhabited RunOutcome := ⟨⟨Except.error "", [], [], 0, 0⟩⟩

/-- The `while True` retry loop of `process_paper` (lines 272-299), fuel
indexed.  Each iteration counts the request (line 276), waits for the rate
limiter (line 277), calls the client (line 280); on success it records
usage, caches the response under `cacheKey` — the key computed once from
the untruncated text — and parses (lines 281-283); on an overflow
failure it truncates and retries (lines 285-297); any other failure is
re-raised (line 299). -/
def processLoop (oracle : Oracle) (budget promptTokens : Nat) (query : Query)
    (cacheKey : List Nat) (filename : String) :
    Nat → Text → Int → List (Int × Nat) → Cache → Nat → Option RunOutcome
  | 0, _, _, _, _, _ => none
  | fuel + 1, currentText, now, usage, cache, calls =>
    let totalTokens := currentText.length + promptTokens + query.length
    match waitForRateLimit budget totalTokens (fuel + 1) now usage with
    | none => none
    | some (now1, usage1, _) =>
      match oracle currentText query with
      | .ok response =>
        some ⟨Except.ok (parseResponse response filename),
              cacheSet cacheKey response cache,
              usage1 ++ [(now1, totalTokens)], now1, calls + 1⟩
      | .overflow _ =>
        processLoop oracle budget promptTokens query cacheKey filename fuel
          (overflowShrink currentText) now1 usage1 cache (calls + 1)
      | .fatal msg => some ⟨Except.error msg, cache, usage1, now1, calls + 1⟩

/-- `process_paper` (lines 256-299): compute the cache key from the full
text and the query (line 266), return the parsed cached response on a hit
(lines 267-269), otherwise run the retry loop on the full text. -/
def processPaper (oracle : Oracle) (budget promptTokens fuel : Nat)
    (text : Text) (query : Query) (filename : String)
    (now : Int) (usage : List (Int × Nat)) (cache : Cache) : Option RunOutcome :=
  let cacheKey := text ++ query
  match cacheGet cacheKey cache with
  | some cachedResponse => some ⟨Except.ok (parseResponse cachedResponse filename), cache, usage, now, 0⟩
  | none => processLoop oracle budget promptTokens query cacheKey filename fuel text now usage cache 0

/-! ## Result store (`CSVStorage`, lines 136-177) and batch driver
(`process_directory`, lines 351-391) -/

/-- The four exception kinds `is_processed` catches when reading the result
CSV (line 156). A missing file (line 152) is folded into
`fileNotFound`. -/
inductive StoreReadError where
  | fileNotFound
  | emptyData
  | keyError
  | valueError
deriving DecidableEq

/-- What reading the result CSV yields: the `filename` column values, or
one of the caught read errors. -/
abbrev ResultStore := Except StoreReadError (List String)

/-- The body of the `try` in `is_processed` (lines 151-155): read the
store, then test membership in the `filename` column. -/
def lookupFilenameColumn (store : ResultStore) (filename : String) : Except StoreReadError Bool :=
  match store with
  | .error e => .error e
  | .ok names => .ok (names.contains filename)

/-- `CSVStorage.is_processed` (lines 149-158): the `except` arm maps every
one of the four caught read errors to `False`. -/
def isProcessed (store : ResultStore) (filename : String) : Bool :=
  match lookupFilenameColumn store filename with
  | .ok b => b
  | .error _ => false

/-- `save_results` (lines 171-177) as seen through a later
`is_processed`: the store now holds exactly the filenames of the records
written this run. -/
def saveResults (results : List PaperMetadata) : ResultStore :=
  .ok (results.map (fun r => r.filename))

/-- One directory entry: the PDF name and the text its extraction
yields. -/
structure DirEntry where
  name : String
  text : Text

/-- The state threaded through `process_directory`: the accumulated
results of this run, the shared cache, the rate-limiter window, the clock,
the result store on disk, and the total number of Claude calls made. -/
structure BatchState where
  results : List PaperMetadata
  cache : Cache
  usage : List (Int × Nat)
  now : Int
  store : ResultStore
  llmCalls : Nat

/-- `process_directory` (lines 351-391).  Per file: when
`is_processed` holds and the cache holds the key recomputed from the full
text, the cached response is parsed and the loop continues without saving
(lines 359-369); otherwise the file goes through `process_paper`
(line 375), a raised error becomes an error record (lines 382-389), and
the results so far are written to the store (lines 379, 391).  The Python
handler catches only (IOError, OSError, ValueError, KeyError); errors the
loop model raises are treated as caught, which is the case for every run
the claims below examine. -/
def processDirectoryLoop (oracle : Oracle) (budget promptTokens : Nat) (query : Query)
    (fuel : Nat) : List DirEntry → BatchState → Option BatchState
  | [], st => some st
  | e :: es, st =>
    match (if isProcessed st.store e.name then cacheGet (e.text ++ query) st.cache else none) with
    | some resp =>
      processDirectoryLoop oracle budget promptTokens query fuel es
        { st with results := st.results ++ [parseResponse resp e.name] }
    | none =>
      match processPaper oracle budget promptTokens fuel e.text query e.name st.now st.usage st.cache with
      | none => none
      | some out =>
        let record := match out.result with
          | .ok r => r
          | .error msg => { filename := e.name, error := some msg }
        let results2 := st.results ++ [record]
        processDirectoryLoop oracle budget promptTokens query fuel es
          { results := results2, cache := out.cache, usage := out.usage, now := out.now,
            store := saveResults results2, llmCalls := st.llmCalls + out.calls }

/-! ## Definitions stated from the specification text, for comparison with
the source -/

/-- The oldest timestamp in a usage window (`min(ts for ts, _ in ...)` in
the older script variant; `0` for an empty window, which no claim
exercises). -/
def oldestTimestamp : List (Int × Nat) → Int
  | [] => 0
  | [(t, _)] => t
  | (t, _) :: rest => min t (oldestTimestamp rest)

/-- Stated from the specification text, for comparison with the source:
the suspension the spec prescribes on a denied admission — the time
remaining until the oldest sample ages out of the 60-second window. -/
def specAgeOutWait (now : Int) (usage : List (Int × Nat)) : Int :=
  60 - (now - oldestTimestamp usage)

/-- Stated from the specification text, for comparison with the source:
the shrink target the spec prescribes,
`min(currentTokens × 0.8, tokensStillAllowedThisMinute)` clamped up to the
1000-token floor. -/
def specShrinkTarget (currentTokens allowedThisMinute : Nat) : Nat :=
  max 1000 (min (currentTokens * 4 / 5) allowedThisMinute)

/-! ## Concrete runs used by the claims -/

/-- A model response whose only data-like line has 12 commas. -/
def c6resp : String := "Result row\nq,w,e,r,t,y,u,i,o,p,a,s,d"

/-- A model response whose second line is the first with ten commas. -/
def c6wresp : String := "Intro line\na,b,c,d,e,f,g,h,i,j,k"

/-- An oracle that always answers with an 11-field CSV row. -/
def c7oracle : Oracle := fun _ _ => .ok "a,b,c,d,e,f,g,h,i,j,k"

/-- One full orchestrator run against `c7oracle`. -/
def c7run : Option RunOutcome := processPaper c7oracle 20000 100 3 [1, 2, 3] [] "c7.pdf" 0 [] []

/-- A 1250-token document. -/
def c1text : Text := List.replicate 1250 7

/-- An oracle that rejects texts longer than 1000 tokens as over-length
and answers `"RESP"` otherwise. -/
def c1oracle : Oracle := fun t _ => if 1000 < t.length then .overflow "too long" else .ok "RESP"

/-- A run that is truncated once (1250 to 1000 tokens) before the call
succeeds. -/
def c1run : Option RunOutcome := processPaper c1oracle 20000 100 5 c1text [] "c1.pdf" 0 [] []

/-- A document already at the 1000-token truncation floor. -/
def floorText : Text := List.replicate 1000 0

/-- An oracle whose every answer is an error the source classifies as a
token-limit overflow. -/
def alwaysOverflowOracle : Oracle := fun _ _ => .overflow "prompt is too long"

/-- An oracle that rejects texts longer than 1000 tokens and answers
`"RESP3"` otherwise. -/
def c3oracle : Oracle := fun t _ => if 1000 < t.length then .overflow "too long" else .ok "RESP3"

/-- A 1250-token document for the double-run experiment. -/
def c3text : Text := List.replicate 1250 9

/-- First run: one overflow retry, then success — two Claude calls. -/
def c3run1 : Option RunOutcome := processPaper c3oracle 20000 100 5 c3text [] "c3.pdf" 0 [] []

/-- Second run over the identical (text, query), starting from the first
run's cache. -/
def c3run2 : Option RunOutcome :=
  processPaper c3oracle 20000 100 5 c3text [] "c3.pdf" 1000
    ((c3run1.getD default).usage) ((c3run1.getD default).cache)

/-- An oracle answering the same small response to every call. -/
def c3wOracle : Oracle := fun _ _ => .ok "a,b,c,d,e,f,g,h,i,j,k"

/-- A completed small first run against `c3wOracle`. -/
def c3wrun : RunOutcome := (processPaper c3wOracle 20000 100 2 [5] [] "w4.pdf" 0 [] []).getD default

/-- An oracle answering `"resp9"` to every call. -/
def c9oracle : Oracle := fun _ _ => .ok "resp9"

/-- A batch state whose result store already has a row for
`paper1.pdf` but whose response cache is empty. -/
def c9start : BatchState := ⟨[], [], [], 0, .ok ["paper1.pdf"], 0⟩

/-- A batch state whose result store has a row for `w9.pdf` and whose
cache still holds the matching response. -/
def c9wst : BatchState := ⟨[], [([7], "respw")], [], 0, .ok ["w9.pdf"], 0⟩

/-! ## Helper lemmas -/

/-- One unfolding of the admission loop. -/
theorem waitForRateLimit_succ (budget required fuel : Nat) (now : Int) (usage : List (Int × Nat)) :
    waitForRateLimit budget required (fuel + 1) now usage =
      (if sumUsage (cleanupOldUsage now usage) + required ≤ budget then
        some (now, cleanupOldUsage now usage, 0)
      else if (cleanupOldUsage now usage).isEmpty then
        some (now, cleanupOldUsage now usage, 0)
      else
        match waitForRateLimit budget required fuel (now + 60)
            (cleanupOldUsage (now + 60) (cleanupOldUsage now usage)) with
        | none => none
        | some (n, u, s) => some (n, u, 60 + s)) := rfl

/-! ## Claim C4 -/

/-- Claim C4: for every usage-window state and required token count, the
rate limiter admits without suspending the caller exactly when, after
pruning samples older than 60 seconds, the remaining usage plus the
required tokens fits the per-minute budget or the pruned window is empty —
in the empty case even when the required tokens alone exceed the
budget. -/
theorem rate_admit_immediate_iff (budget required fuel : Nat) (now : Int)
    (usage : List (Int × Nat)) :
    waitForRateLimit budget required (fuel + 1) now usage
        = some (now, cleanupOldUsage now usage, 0) ↔
      (sumUsage (cleanupOldUsage now usage) + required ≤ budget ∨
        cleanupOldUsage now usage = []) := by
  constructor
  · intro h
    by_contra hcon
    push_neg at hcon
    obtain ⟨h1, h2⟩ := hcon
    have h1' : ¬ (sumUsage (cleanupOldUsage now usage) + required ≤ budget) := by omega
    have h2' : ¬ ((cleanupOldUsage now usage).isEmpty = true) := by
      simp [List.isEmpty_iff, h2]
    rw [waitForRateLimit_succ, if_neg h1', if_neg h2'] at h
    cases hrec : waitForRateLimit budget required fuel (now + 60)
        (cleanupOldUsage (now + 60) (cleanupOldUsage now usage)) with
    | none => rw [hrec] at h; exact Option.noConfusion h
    | some v =>
      obtain ⟨n, u, s⟩ := v
      rw [hrec] at h
      have h3 : 60 + s = 0 := (congrArg (fun o => (o.getD (0, [], 0)).2.2) h :)
      omega
  · intro h
    rw [waitForRateLimit_succ]
    rcases h with h | h
    · rw [if_pos h]
    · by_cases hb : sumUsage (cleanupOldUsage now usage) + required ≤ budget
      · rw [if_pos hb]
      · rw [if_neg hb, if_pos (by simp [List.isEmpty_iff, h])]

/-! ## Claim C5 -/

/-- Claim C5 counterexample: with one 30-second-old sample of 50 tokens, a
budget of 40 and 10 required tokens, admission is denied with a non-empty
window, and the source suspends for the constant 60 seconds, not for the
30 seconds that remain until the oldest sample ages out of the window. -/
theorem sleep_is_constant_sixty_ce :
    firstSleepDuration 40 10 100 [(70, 50)] = some 60 ∧
    specAgeOutWait 100 [(70, 50)] = 30 ∧ (60 : Int) ≠ 30 := by decide

/-- Claim C5 (amended): when admission is denied with a non-empty pruned
window, the limiter suspends for a constant 60 seconds — not for the time
remaining until the oldest sample ages out — and then re-evaluates
starting from the pruning step. -/
theorem denied_admission_sleeps_sixty (budget required fuel : Nat) (now : Int)
    (usage : List (Int × Nat))
    (hne : cleanupOldUsage now usage ≠ [])
    (hover : budget < sumUsage (cleanupOldUsage now usage) + required) :
    firstSleepDuration budget required now usage = some 60 ∧
    waitForRateLimit budget required (fuel + 1) now usage =
      (waitForRateLimit budget required fuel (now + 60)
          (cleanupOldUsage (now + 60) (cleanupOldUsage now usage))).map
        (fun r => (r.1, r.2.1, 60 + r.2.2)) := by
  have h1 : ¬ (sumUsage (cleanupOldUsage now usage) + required ≤ budget) := by omega
  have h2 : ¬ ((cleanupOldUsage now usage).isEmpty = true) := by
    simp [List.isEmpty_iff, hne]
  constructor
  · simp only [firstSleepDuration]
    rw [if_neg h1, if_neg h2]
  · rw [waitForRateLimit_succ, if_neg h1, if_neg h2]
    cases hrec : waitForRateLimit budget required fuel (now + 60)
        (cleanupOldUsage (now + 60) (cleanupOldUsage now usage)) with
    | none => rfl
    | some v => obtain ⟨n, u, s⟩ := v; rfl

/-- Claim C5 witness: the amended statement applied to the concrete denied
state above. -/
theorem denied_admission_sleeps_sixty_wit :
    firstSleepDuration 40 10 100 [(70, 50)] = some 60 ∧
    waitForRateLimit 40 10 (0 + 1) 100 [(70, 50)] =
      (waitForRateLimit 40 10 0 (100 + 60)
          (cleanupOldUsage (100 + 60) (cleanupOldUsage 100 [(70, 50)]))).map
        (fun r => (r.1, r.2.1, 60 + r.2.2)) :=
  denied_admission_sleeps_sixty 40 10 0 100 [(70, 50)] (by decide) (by decide)

/-! ## Claim C8 -/

/-- Claim C8 counterexample: in a rate-limiter state with only 500 tokens
still allowed this minute, an overflow on a 10000-token text truncates to
8000 tokens — `max(1000, ⌊10000 × 0.8⌋)` — and not to the 1000 the
specified `min(currentTokens × 0.8, tokensStillAllowedThisMinute)` with
floor-clamping would give. -/
theorem shrink_ignores_minute_budget_ce :
    20000 - sumUsage (cleanupOldUsage 100 [(100, 19500)]) = 500 ∧
    shrinkTarget 10000 = 8000 ∧
    (overflowShrink (List.replicate 10000 0)).length = 8000 ∧
    specShrinkTarget 10000 500 = 1000 ∧ (8000 : Nat) ≠ 1000 := by
  refine ⟨by decide, by decide, ?_, by decide, by decide⟩
  have h : shrinkTarget 10000 = 8000 := by decide
  simp only [overflowShrink, List.length_take, List.length_replicate, h]
  decide

/-- Claim C8 (amended): on an overflow failure the new target token count
is `max(1000, ⌊currentTokens × 0.8⌋)` — the tokens still allowed within
the current minute are not consulted — and a target below the 1000-token
floor is clamped up to the floor rather than failing; the shrink step
takes the corresponding token stream prefix. -/
theorem shrink_is_floor_clamped (n : Nat) :
    (1000 ≤ n * 4 / 5 → shrinkTarget n = n * 4 / 5) ∧
    (n * 4 / 5 < 1000 → shrinkTarget n = 1000) ∧
    1000 ≤ shrinkTarget n ∧
    (∀ t : Text, t.length = n → overflowShrink t = t.take (shrinkTarget n)) := by
  refine ⟨fun h => ?_, fun h => ?_, ?_, fun t ht => ?_⟩
  · simp only [shrinkTarget]; omega
  · simp only [shrinkTarget]; omega
  · simp only [shrinkTarget]; omega
  · simp only [overflowShrink, ht]

/-- Claim C8 witness: the amended statement applied at 10000 tokens (above
the floor) and at 500 tokens (clamped to the floor). -/
theorem shrink_is_floor_clamped_wit :
    shrinkTarget 10000 = 8000 ∧ shrinkTarget 500 = 1000 :=
  ⟨(shrink_is_floor_clamped 10000).1 (by decide),
   (shrink_is_floor_clamped 500).2.1 (by decide)⟩

/-! ## Claim C10 -/

/-- Claim C10: `is_processed` is total, and on every one of the caught
read-error kinds — missing file, empty data, missing `filename` column,
value error — it returns `False`, so a corrupt or absent result store
makes documents count as unprocessed; on a successful read it is exactly
membership in the `filename` column. -/
theorem is_processed_read_errors_false :
    (∀ (e : StoreReadError) (filename : String),
        lookupFilenameColumn (Except.error e) filename = Except.error e ∧
        isProcessed (Except.error e) filename = false) ∧
    (∀ (names : List String) (filename : String),
        isProcessed (Except.ok names) filename = names.contains filename) :=
  ⟨fun _ _ => ⟨rfl, rfl⟩, fun _ _ => rfl⟩

/-! ## Claim C6 -/

/-- No line qualifies when every line is a prompt echo or has fewer than
ten commas. -/
theorem selectCsvLine_eq_none (ls : List (List Char))
    (h : ∀ l ∈ ls, isPromptTextLine l = true ∨ l.count ',' < 10) :
    selectCsvLine ls = none := by
  induction ls with
  | nil => rfl
  | cons a as ih =>
    have ha := h a (List.mem_cons_self a as)
    have has : ∀ l ∈ as, isPromptTextLine l = true ∨ l.count ',' < 10 :=
      fun l hl => h l (List.mem_cons_of_mem a hl)
    rcases ha with ha | ha
    · simp [selectCsvLine, ha, ih has]
    · have hle : ¬ (10 ≤ a.count ',') := by omega
      cases hf : isPromptTextLine a <;> simp [selectCsvLine, hf, hle, ih has]

/-- The selected line is the first non-discarded line with at least ten
commas. -/
theorem selectCsvLine_append_first (l : List Char) (post : List (List Char))
    (hl1 : isPromptTextLine l = false) (hl2 : 10 ≤ l.count ',') :
    ∀ pre : List (List Char),
      (∀ x ∈ pre, isPromptTextLine x = true ∨ x.count ',' < 10) →
      selectCsvLine (pre ++ l :: post) = some l := by
  intro pre
  induction pre with
  | nil => intro _; simp [selectCsvLine, hl1, hl2]
  | cons a as ih =>
    intro hpre
    have ha := hpre a (List.mem_cons_self a as)
    have has : ∀ x ∈ as, isPromptTextLine x = true ∨ x.count ',' < 10 :=
      fun x hx => hpre x (List.mem_cons_of_mem a hx)
    rcases ha with ha | ha
    · simpa [selectCsvLine, ha] using ih has
    · have hle : ¬ (10 ≤ a.count ',') := by omega
      cases hf : isPromptTextLine a <;> simpa [selectCsvLine, hf, hle] using ih has

/-- Claim C6 counterexample: a response whose only data-like line has 12
commas — so no line has at least 14 commas — is still parsed by the
source into an error-free record, where the claim says the parse must
fail. -/
theorem ten_comma_line_parsed_ce :
    (∀ l ∈ splitLines (trimChars c6resp.toList), l.count ',' < 14) ∧
    (parseResponse c6resp "x.pdf").error = none ∧
    (parseResponse c6resp "x.pdf").paper_citation = some "q" ∧
    (parseResponse c6resp "x.pdf").evidence_gaps = none := by decide

/-- Claim C6 (amended): after discarding lines containing the prompt
fragments "research question" or "csv format" (case-insensitively), the
parser selects as the data row the first remaining line containing at
least 10 commas — not `expectedFieldCount − 1 = 14` — and when no
remaining line has at least 10 commas it produces an error-tagged record
rather than extracting a prose line. -/
theorem parser_selects_first_ten_comma_line (response filename : String) :
    ((∀ l ∈ splitLines (trimChars response.toList),
        isPromptTextLine l = true ∨ l.count ',' < 10) →
      parseResponse response filename =
        { filename := filename, error := some "No valid CSV line found in response" }) ∧
    (∀ (pre : List (List Char)) (l : List Char) (post : List (List Char)),
      splitLines (trimChars response.toList) = pre ++ l :: post →
      (∀ x ∈ pre, isPromptTextLine x = true ∨ x.count ',' < 10) →
      isPromptTextLine l = false → 10 ≤ l.count ',' →
      parseResponse response filename = recordOfRow filename (csvFields l)) := by
  constructor
  · intro h
    simp only [parseResponse]
    rw [selectCsvLine_eq_none _ h]
  · intro pre l post hsplit hpre h1 h2
    simp only [parseResponse]
    rw [hsplit, selectCsvLine_append_first l post h1 h2 pre hpre]

/-- Claim C6 witness: the amended statement applied to a response with no
qualifying line and to a response whose second line is the first with ten
commas. -/
theorem parser_selects_first_ten_comma_line_wit :
    parseResponse "zero" "w0.pdf" =
      { filename := "w0.pdf", error := some "No valid CSV line found in response" } ∧
    parseResponse c6wresp "w1.pdf" =
      recordOfRow "w1.pdf" (csvFields "a,b,c,d,e,f,g,h,i,j,k".toList) :=
  ⟨(parser_selects_first_ten_comma_line "zero" "w0.pdf").1 (by decide),
   (parser_selects_first_ten_comma_line c6wresp "w1.pdf").2 ["Intro line".toList]
     "a,b,c,d,e,f,g,h,i,j,k".toList [] (by decide) (by decide) (by decide) (by decide)⟩

/-! ## Claim C7 -/

/-- Claim C7 counterexample: the orchestrator hands downstream the record
parsed from a response whose data row has 11 fields; that record has its
first eleven fields set, its trailing fields unset, and no error — a
partial mix the claim says can never be passed on. -/
theorem partial_record_no_error_ce :
    c7run = some ⟨Except.ok (parseResponse "a,b,c,d,e,f,g,h,i,j,k" "c7.pdf"),
                  cacheSet ([1, 2, 3] ++ []) "a,b,c,d,e,f,g,h,i,j,k" [],
                  [(0, 103)], 0, 1⟩ ∧
    (parseResponse "a,b,c,d,e,f,g,h,i,j,k" "c7.pdf").error = none ∧
    (parseResponse "a,b,c,d,e,f,g,h,i,j,k" "c7.pdf").main_resilience_factors = some "k" ∧
    (parseResponse "a,b,c,d,e,f,g,h,i,j,k" "c7.pdf").resilience_tradeoffs = none :=
  ⟨rfl, by decide, by decide, by decide⟩

/-- Claim C7 (amended): every record the parser produces either carries
only the filename and an error (all fifteen fields unset), or carries no
error and its fifteen fields mapped positionally from the parsed row —
so when the row has fewer than fifteen fields the trailing fields are
unset and a partially-filled, error-free record is passed downstream. -/
theorem record_fields_positional_from_row (response filename : String) :
    ((parseResponse response filename).error ≠ none →
      fieldsOf (parseResponse response filename) = List.replicate 15 none) ∧
    ((parseResponse response filename).error = none →
      ∃ row : List String,
        fieldsOf (parseResponse response filename) =
          [row.get? 0, row.get? 1, row.get? 2, row.get? 3, row.get? 4,
           row.get? 5, row.get? 6, row.get? 7, row.get? 8, row.get? 9,
           row.get? 10, row.get? 11, row.get? 12, row.get? 13, row.get? 14]) := by
  simp only [parseResponse]
  cases hsel : selectCsvLine (splitLines (trimChars response.toList)) with
  | none => exact ⟨fun _ => rfl, fun he => absurd he (by simp)⟩
  | some l => exact ⟨fun he => absurd rfl he, fun _ => ⟨csvFields l, rfl⟩⟩

/-- Claim C7 witness: the amended statement applied to a parse failure and
to the 11-field row above. -/
theorem record_fields_positional_from_row_wit :
    fieldsOf (parseResponse "just prose" "w2.pdf") = List.replicate 15 none ∧
    ∃ row : List String,
      fieldsOf (parseResponse "a,b,c,d,e,f,g,h,i,j,k" "w3.pdf") =
        [row.get? 0, row.get? 1, row.get? 2, row.get? 3, row.get? 4,
         row.get? 5, row.get? 6, row.get? 7, row.get? 8, row.get? 9,
         row.get? 10, row.get? 11, row.get? 12, row.get? 13, row.get? 14] :=
  ⟨(record_fields_positional_from_row "just prose" "w2.pdf").1 (by decide),
   (record_fields_positional_from_row "a,b,c,d,e,f,g,h,i,j,k" "w3.pdf").2 (by decide)⟩

/-! ## Claim C1 -/

/-- Every cache mutation the retry loop performs uses the `cacheKey` it
was given — the key `process_paper` computed once from the untruncated
text. -/
theorem processLoop_cache_writes (oracle : Oracle) (budget promptTokens : Nat) (query : Query)
    (cacheKey : List Nat) (filename : String) :
    ∀ (fuel : Nat) (t : Text) (now : Int) (usage : List (Int × Nat)) (cache : Cache)
      (calls : Nat) (out : RunOutcome),
      processLoop oracle budget promptTokens query cacheKey filename fuel t now usage cache calls
          = some out →
      out.cache = cache ∨ ∃ resp, out.cache = cacheSet cacheKey resp cache := by
  intro fuel
  induction fuel with
  | zero =>
    intro t now usage cache calls out h
    exact Option.noConfusion h
  | succ n ih =>
    intro t now usage cache calls out h
    simp only [processLoop] at h
    split at h
    · exact Option.noConfusion h
    · split at h
      · injection h with h
        subst h
        exact Or.inr ⟨_, rfl⟩
      · exact ih _ _ _ _ _ _ h
      · injection h with h
        subst h
        exact Or.inl rfl

/-- Claim C1 counterexample: a run whose text is shrunk from 1250 to 1000
tokens before the successful call caches the response under the key of
the original full text; no entry exists under the key of the truncated
text actually sent. -/
theorem truncated_run_caches_under_full_key_ce :
    (c1run.map fun o => (o.calls, cacheGet (c1text ++ []) o.cache,
        cacheGet (overflowShrink c1text ++ []) o.cache)) = some (2, some "RESP", none) ∧
    overflowShrink c1text ≠ c1text := by
  exact ⟨rfl, by decide⟩

/-- Claim C1 (amended): whatever truncation happens before the successful
call, every terminating run leaves the cache either untouched or extended
under the single key computed from the original full document text and
the query — never under a key of the truncated text. -/
theorem cache_write_uses_original_key (oracle : Oracle) (budget promptTokens fuel : Nat)
    (text : Text) (query : Query) (filename : String) (now : Int)
    (usage : List (Int × Nat)) (cache : Cache) (out : RunOutcome)
    (h : processPaper oracle budget promptTokens fuel text query filename now usage cache
        = some out) :
    out.cache = cache ∨ ∃ resp, out.cache = cacheSet (text ++ query) resp cache := by
  simp only [processPaper] at h
  split at h
  · injection h with h
    subst h
    exact Or.inl rfl
  · exact processLoop_cache_writes oracle budget promptTokens query (text ++ query) filename
      fuel text now usage cache 0 out h

/-- Claim C1 witness: the amended statement applied to a concrete run
that starts from a cache already holding the full-text key. -/
theorem cache_write_uses_original_key_wit :
    (⟨Except.ok (parseResponse "r" "w5.pdf"), cacheSet ([1, 2] ++ [3]) "r" [], [], 0, 0⟩
        : RunOutcome).cache = cacheSet ([1, 2] ++ [3]) "r" [] ∨
    ∃ resp, (⟨Except.ok (parseResponse "r" "w5.pdf"), cacheSet ([1, 2] ++ [3]) "r" [], [], 0, 0⟩
        : RunOutcome).cache = cacheSet ([1, 2] ++ [3]) resp (cacheSet ([1, 2] ++ [3]) "r" []) :=
  cache_write_uses_original_key (fun _ _ => .fatal "unused") 20000 100 1 [1, 2] [3] "w5.pdf"
    0 [] (cacheSet ([1, 2] ++ [3]) "r" []) _ rfl

/-! ## Claim C2 -/

/-- At the 1000-token floor the truncation step is the identity. -/
theorem overflowShrink_floorText : overflowShrink floorText = floorText := by decide

/-- Against an oracle that always signals overflow, the retry loop at the
floor never reaches any outcome, however much fuel it is given. -/
theorem floor_loop_stuck (ck : List Nat) (cache : Cache) :
    ∀ (fuel : Nat) (now : Int) (calls : Nat),
      processLoop alwaysOverflowOracle 20000 100 [] ck "p.pdf" fuel floorText now [] cache calls
        = none := by
  intro fuel
  induction fuel with
  | zero => intro now calls; rfl
  | succ n ih =>
    intro now calls
    calc processLoop alwaysOverflowOracle 20000 100 [] ck "p.pdf" (n + 1) floorText now [] cache calls
        = processLoop alwaysOverflowOracle 20000 100 [] ck "p.pdf" n (overflowShrink floorText)
            now [] cache (calls + 1) := by rfl
      _ = none := by rw [overflowShrink_floorText]; exact ih now (calls + 1)

/-- Claim C2 (code_bug): at the 1000-token floor the shrink step makes no
progress — the truncated text is the text itself — yet the orchestrator
does not produce a Failed record: against a client that keeps signalling
overflow it re-calls the client forever (the fuel-indexed loop yields no
outcome for any amount of fuel), so the truncate-and-retry loop is not
bounded as the claim requires. -/
theorem floor_overflow_loops_forever :
    overflowShrink floorText = floorText ∧
    ∀ (fuel : Nat) (now : Int),
      processPaper alwaysOverflowOracle 20000 100 fuel floorText [] "p.pdf" now [] [] = none := by
  refine ⟨overflowShrink_floorText, fun fuel now => ?_⟩
  have h := floor_loop_stuck (floorText ++ []) [] fuel now 0
  simpa [processPaper, cacheGet] using h

/-! ## Claim C3 -/

/-- Looking up the key just written returns the written value. -/
theorem cacheGet_set_self (key : List Nat) (v : String) :
    ∀ c : Cache, cacheGet key (cacheSet key v c) = some v := by
  intro c
  induction c with
  | nil => simp [cacheGet, cacheSet, List.find?]
  | cons p rest ih =>
    obtain ⟨k, w⟩ := p
    by_cases h : (k == key) = true
    · simp [cacheSet, h, cacheGet, List.find?]
    · simp only [cacheSet, h, if_false, Bool.false_eq_true]
      simpa [cacheGet, List.find?, h] using ih

/-- A loop outcome whose result is a record (not a re-raised error) wrote
its response into the cache under the given key. -/
theorem processLoop_ok_wrote_key (oracle : Oracle) (budget promptTokens : Nat) (query : Query)
    (cacheKey : List Nat) (filename : String) :
    ∀ (fuel : Nat) (t : Text) (now : Int) (usage : List (Int × Nat)) (cache : Cache)
      (calls : Nat) (out : RunOutcome) (r : PaperMetadata),
      processLoop oracle budget promptTokens query cacheKey filename fuel t now usage cache calls
          = some out →
      out.result = Except.ok r →
      ∃ resp, out.cache = cacheSet cacheKey resp cache := by
  intro fuel
  induction fuel with
  | zero =>
    intro t now usage cache calls out r h _
    exact Option.noConfusion h
  | succ n ih =>
    intro t now usage cache calls out r h hr
    simp only [processLoop] at h
    split at h
    · exact Option.noConfusion h
    · split at h
      · injection h with h
        subst h
        exact ⟨_, rfl⟩
      · exact ih _ _ _ _ _ _ _ h hr
      · injection h with h
        subst h
        exact Except.noConfusion hr

/-- Claim C3 counterexample: running the orchestrator twice on the same
1250-token document makes two external calls in total — the first run
needs an overflow retry before its successful call — even though the
second run makes zero calls; so "at most one external LLM call in total"
fails. -/
theorem two_runs_two_calls_ce :
    (c3run1.map fun o => o.calls) = some 2 ∧
    (c3run2.map fun o => o.calls) = some 0 ∧
    ¬ (2 + 0 ≤ 1) :=
  ⟨rfl, rfl, by decide⟩

/-- Claim C3 (amended): whenever a first run returns a record, the cache
holds the content key of the full (text, query), and a second run on the
identical pair returns the record parsed from that cached raw response
while making zero external LLM calls — all external calls are the first
run's (one per attempt, so overflow retries can exceed one in total). -/
theorem second_run_makes_no_calls (oracle : Oracle) (budget promptTokens fuel : Nat)
    (text : Text) (query : Query) (filename : String) (now : Int)
    (usage : List (Int × Nat)) (cache : Cache) (out : RunOutcome) (r : PaperMetadata)
    (h1 : processPaper oracle budget promptTokens fuel text query filename now usage cache
        = some out)
    (h2 : out.result = Except.ok r) :
    ∃ resp, cacheGet (text ++ query) out.cache = some resp ∧
      ∀ (fuel2 : Nat) (now2 : Int) (usage2 : List (Int × Nat)),
        processPaper oracle budget promptTokens fuel2 text query filename now2 usage2 out.cache =
          some ⟨Except.ok (parseResponse resp filename), out.cache, usage2, now2, 0⟩ := by
  have hkey : ∃ resp, cacheGet (text ++ query) out.cache = some resp := by
    simp only [processPaper] at h1
    split at h1
    · rename_i resp hc
      injection h1 with h1
      subst h1
      exact ⟨resp, hc⟩
    · obtain ⟨resp, hcs⟩ := processLoop_ok_wrote_key oracle budget promptTokens query
        (text ++ query) filename fuel text now usage cache 0 out r h1 h2
      exact ⟨resp, by rw [hcs]; exact cacheGet_set_self (text ++ query) resp cache⟩
  obtain ⟨resp, hresp⟩ := hkey
  refine ⟨resp, hresp, fun fuel2 now2 usage2 => ?_⟩
  simp only [processPaper]
  rw [hresp]

/-- Claim C3 witness: the amended statement applied to a completed
concrete first run. -/
theorem second_run_makes_no_calls_wit :
    ∃ resp, cacheGet ([5] ++ []) c3wrun.cache = some resp ∧
      ∀ (fuel2 : Nat) (now2 : Int) (usage2 : List (Int × Nat)),
        processPaper c3wOracle 20000 100 fuel2 [5] [] "w4.pdf" now2 usage2 c3wrun.cache =
          some ⟨Except.ok (parseResponse resp "w4.pdf"), c3wrun.cache, usage2, now2, 0⟩ :=
  second_run_makes_no_calls c3wOracle 20000 100 2 [5] [] "w4.pdf" 0 [] [] c3wrun
    (parseResponse "a,b,c,d,e,f,g,h,i,j,k" "w4.pdf") (by rfl) (by rfl)

/-! ## Claim C9 -/

/-- Claim C9 counterexample: the result store already has a row for
`paper1.pdf`, yet — because the response cache lacks the matching entry —
re-running the batch over a directory holding just that file still routes
it through the LLM pipeline and makes one Claude call, where the claim
says an already-present filename never triggers one. -/
theorem processed_row_without_cache_calls_llm_ce :
    isProcessed c9start.store "paper1.pdf" = true ∧
    ((processDirectoryLoop c9oracle 20000 100 [] 3 [⟨"paper1.pdf", [1, 2, 3]⟩] c9start).map
        fun st => st.llmCalls) = some 1 ∧
    (1 : Nat) ≠ 0 :=
  ⟨rfl, rfl, by decide⟩

/-- Claim C9 (amended): an already-present filename skips LLM processing
only when the response cache still holds the entry keyed by that file's
full text and query; in that case the batch step just appends the record
parsed from the cached response, leaving the call count, cache, store,
window and clock untouched — on a cache miss the file is reprocessed
through the orchestrator's LLM pipeline despite its row. -/
theorem processed_row_with_cache_skips_llm (oracle : Oracle) (budget promptTokens : Nat)
    (query : Query) (fuel : Nat) (e : DirEntry) (es : List DirEntry) (st : BatchState)
    (resp : String)
    (hproc : isProcessed st.store e.name = true)
    (hcache : cacheGet (e.text ++ query) st.cache = some resp) :
    processDirectoryLoop oracle budget promptTokens query fuel (e :: es) st =
      processDirectoryLoop oracle budget promptTokens query fuel es
        { st with results := st.results ++ [parseResponse resp e.name] } ∧
    ({ st with results := st.results ++ [parseResponse resp e.name] } : BatchState).llmCalls
      = st.llmCalls := by
  refine ⟨?_, rfl⟩
  simp only [processDirectoryLoop, hproc, if_true, hcache]

/-- Claim C9 witness: the amended statement applied to a store row with a
matching cache entry. -/
theorem processed_row_with_cache_skips_llm_wit :
    processDirectoryLoop c9oracle 20000 100 [] 2 [⟨"w9.pdf", [7]⟩] c9wst =
      processDirectoryLoop c9oracle 20000 100 [] 2 []
        { c9wst with results := c9wst.results ++ [parseResponse "respw" "w9.pdf"] } ∧
    ({ c9wst with results := c9wst.results ++ [parseResponse "respw" "w9.pdf"] }
        : BatchState).llmCalls = c9wst.llmCalls :=
  processed_row_with_cache_skips_llm c9oracle 20000 100 [] 2 ⟨"w9.pdf", [7]⟩ [] c9wst "respw"
    (by rfl) (by rfl)

end GcrPaperProc
